import Mathlib

/-!
Shallow embedding of the cardiac health platform's core operations
(`src/database/clinical_service.py`, `src/database/database_service.py`,
`src/wearable_integration/fitbit_auth.py`, `src/app.py`,
`src/database/demo_data.py`), together with theorems checking the
specification's claims about them.

Conventions of the embedding:
* the relational store is modelled as in-memory lists of rows, one list per
  table; `session.add` + `commit` is an append;
* timestamps (`datetime`) are integers; `timedelta(days=d)` subtracts `d`;
* Python `None`-able columns are `Option`; Python truthiness on a numeric
  optional (`if x:`) is "present and nonzero";
* SQL `ORDER BY ... DESC` clauses are dropped where only the membership of
  the result set matters to a claim (they permute, never filter).
-/

namespace CardiacPlatform

/-- Enum `PatientStatus` from `data_models/database_models.py`. -/
inductive PatientStatus where
  | ACTIVE | INACTIVE | ARCHIVED | HIGH_RISK
deriving DecidableEq, Repr

/-- Enum `AlertType` from `data_models/database_models.py`. -/
inductive AlertType where
  | HIGH_HEART_RATE | LOW_HRV | SYMPTOM_DETERIORATION | MISSING_DATA | WEIGHT_INCREASE
deriving DecidableEq, Repr

/-- Row of the `Patient` table (the fields the claims touch). -/
structure Patient where
  id : String
  status : PatientStatus
  risk_level : Option String
  created_at : Int
deriving DecidableEq, Repr

/-- Row of the `ClinicianPatient` association table. -/
structure ClinicianPatient where
  clinician_id : String
  patient_id : String
  is_primary : Bool
deriving DecidableEq, Repr

/-- Row of the `PatientAlert` table (`data_models/database_models.py`).
`id` is the primary key; `is_resolved` defaults to `false`,
the resolution fields to `none`. -/
structure AlertRow where
  id : Nat
  patient_id : String
  alert_type : AlertType
  severity : String
  title : String
  description : String
  trigger_value : Option Int
  normal_range : Option String
  is_resolved : Bool
  resolved_at : Option Int
  resolved_by : Option String
  resolution_notes : Option String
  created_at : Int
deriving DecidableEq, Repr

/-- The `alert_data` dict passed to `ClinicalService.create_alert`: the call
sites (`demo_data.py`) supply exactly these keys, so the lifecycle columns
take their model defaults. -/
structure AlertData where
  patient_id : String
  alert_type : AlertType
  severity : String
  title : String
  description : String
  trigger_value : Option Int
  normal_range : Option String
deriving DecidableEq, Repr

/-- Model of `ClinicalService.create_alert`: `PatientAlert(**alert_data)` then
`session.add`/`commit` — an unconditional insert of a fresh OPEN row
(no lookup of existing alerts happens anywhere in the method). -/
def create_alert (db : List AlertRow) (d : AlertData) (new_id : Nat) (now : Int) :
    List AlertRow :=
  db ++ [{ id := new_id, patient_id := d.patient_id, alert_type := d.alert_type,
           severity := d.severity, title := d.title, description := d.description,
           trigger_value := d.trigger_value, normal_range := d.normal_range,
           is_resolved := false, resolved_at := none, resolved_by := none,
           resolution_notes := none, created_at := now }]

/-- A sequence of `create_alert` calls with the same `alert_data`, one per
supplied `(id, created_at)` pair. -/
def create_alert_times (db : List AlertRow) (d : AlertData) (calls : List (Nat × Int)) :
    List AlertRow :=
  calls.foldl (fun acc c => create_alert acc d c.1 c.2) db

/-- Number of OPEN (unresolved) alerts of one `(patient_id, alert_type)` key. -/
def openCount (db : List AlertRow) (pid : String) (ty : AlertType) : Nat :=
  (db.filter (fun a => a.patient_id = pid ∧ a.alert_type = ty ∧ a.is_resolved = false)).length

/-- Model of `ClinicalService.resolve_alert`: `session.get(PatientAlert, alert_id)`
(primary-key lookup); when found, sets `is_resolved`, `resolved_at`,
`resolved_by`, `resolution_notes` unconditionally and returns the refreshed
row; when not found, returns `None` leaving the table untouched.
The update is written as a map over the table guarded by the primary key. -/
def resolve_alert (db : List AlertRow) (alert_id : Nat) (resolved_by : String)
    (notes : Option String) (now : Int) : Option AlertRow × List AlertRow :=
  match db.find? (fun a => a.id = alert_id) with
  | none => (none, db)
  | some _ =>
    let db2 := db.map (fun a =>
      if a.id = alert_id then
        { a with is_resolved := true, resolved_at := some now,
                 resolved_by := some resolved_by, resolution_notes := notes }
      else a)
    (db2.find? (fun a => a.id = alert_id), db2)

/-- Model of `ClinicalService.get_active_alerts`: alerts joined through `Patient` and
`ClinicianPatient` to the clinician when one is given, filtered to
`is_resolved == False` (the `ORDER BY created_at DESC` only permutes). -/
def get_active_alerts (db : List AlertRow) (patients : List Patient)
    (assignments : List ClinicianPatient) (clinician_id : Option String) :
    List AlertRow :=
  match clinician_id with
  | some cid =>
    db.filter (fun a => a.is_resolved = false ∧
      patients.any (fun p => p.id = a.patient_id ∧
        assignments.any (fun cp => cp.clinician_id = cid ∧ cp.patient_id = p.id)))
  | none => db.filter (fun a => a.is_resolved = false)

/-- Model of `ClinicalService.get_patients_by_clinician`: join `Patient` with
`ClinicianPatient` on the clinician; unless `include_inactive`, keep only
`Patient.status == PatientStatus.ACTIVE` (the `ORDER BY` only permutes). -/
def get_patients_by_clinician (patients : List Patient)
    (assignments : List ClinicianPatient) (clinician_id : String)
    (include_inactive : Bool) : List Patient :=
  let joined := patients.filter (fun p =>
    assignments.any (fun cp => cp.clinician_id = clinician_id ∧ cp.patient_id = p.id))
  if include_inactive then joined
  else joined.filter (fun p => p.status = PatientStatus.ACTIVE)

/-- Result fields of `ClinicalService.get_clinician_dashboard_stats` the
claims touch. -/
structure DashboardStats where
  total_patients : Nat
  active_alerts : Nat
deriving DecidableEq, Repr

/-- Model of `ClinicalService.get_clinician_dashboard_stats`: built on
`get_patients_by_clinician(clinician_id)` called with the default
`include_inactive=False`, and on `get_active_alerts(clinician_id)`. -/
def get_clinician_dashboard_stats (patients : List Patient)
    (assignments : List ClinicianPatient) (alerts : List AlertRow)
    (cid : String) : DashboardStats :=
  { total_patients := (get_patients_by_clinician patients assignments cid false).length,
    active_alerts := (get_active_alerts alerts patients assignments (some cid)).length }

/-! ## Fitbit OAuth session (`wearable_integration/fitbit_auth.py`) -/

/-- A stored OAuth token bundle (`st.session_state['fitbit_token']`). -/
structure Token where
  access_token : String
  refresh_token : Option String
  expires_in : Int
deriving DecidableEq, Repr

/-- The mutable Streamlit session state the auth code keeps the credential
in: `fitbit_token` and `token_expires_at` keys. -/
structure AuthState where
  fitbit_token : Option Token
  token_expires_at : Option Int
deriving DecidableEq, Repr

/-- Read of `st.session_state.get` at key `token_expires_at` with default `0`. -/
def expiresAt (st : AuthState) : Int :=
  st.token_expires_at.getD 0

/-- Model of `FitbitAuth.refresh_token`. The provider's reply to the refresh POST is
the parameter `resp` (`some newToken` for HTTP 200, `none` for any failure
status or network exception). Returns the Python return value paired with
the updated session state; every failure path returns `None` and leaves the
state unchanged. -/
def refresh_token (st : AuthState) (now : Int) (resp : Option Token) :
    Option Token × AuthState :=
  match st.fitbit_token with
  | none => (none, st)
  | some tok =>
    match tok.refresh_token with
    | none => (none, st)
    | some _ =>
      match resp with
      | some newTok =>
        (some newTok,
         { fitbit_token := some newTok,
           token_expires_at := some (now + newTok.expires_in) })
      | none => (none, st)

/-- Model of `FitbitAuth.get_valid_token`: when no token is stored, `None`; when
`time.time() > token_expires_at - 300` (the 5-minute buffer), the result is
`self.refresh_token() or token` — the refreshed token when refresh succeeds,
otherwise the previously stored `token`; else the stored token as is. -/
def get_valid_token (st : AuthState) (now : Int) (resp : Option Token) :
    Option Token × AuthState :=
  match st.fitbit_token with
  | none => (none, st)
  | some tok =>
    if now > expiresAt st - 300 then
      let r := refresh_token st now resp
      (match r.1 with
       | some t => some t
       | none => some tok, r.2)
    else (some tok, st)

/-! ## Fitbit sync (`app.py::sync_real_fitbit_data`) -/

/-- Row of the `WearableData` table (the columns the sync writes). -/
structure WearableRow where
  patient_id : String
  timestamp : Int
  heart_rate : Option ℚ
  hrv_rmssd : Option ℚ
  steps : Option Int
  calories : Option Int
  source : String
deriving DecidableEq, Repr

/-- Row of the `CalculatedBiomarker` table (the columns the sync writes). -/
structure BiomarkerRow where
  patient_id : String
  biomarker_type : String
  value : ℚ
  timestamp : Int
  unit : String
  source : String
deriving DecidableEq, Repr

/-- The tables the sync writes into. -/
structure SyncDB where
  wearable : List WearableRow
  biomarkers : List BiomarkerRow
deriving DecidableEq, Repr

/-- Model of `DatabaseService.add_wearable_data`: `WearableData(**dict)` + `add` +
`commit` — an unconditional insert, no lookup of existing rows. -/
def add_wearable_data (db : SyncDB) (row : WearableRow) : SyncDB :=
  { db with wearable := db.wearable ++ [row] }

/-- Model of `DatabaseService.add_biomarker`: likewise an unconditional insert. -/
def add_biomarker (db : SyncDB) (row : BiomarkerRow) : SyncDB :=
  { db with biomarkers := db.biomarkers ++ [row] }

/-- What the Fitbit service hands back for one day's three calls.
Each field is `none` when `make_api_call` returned `None` — which is what
every failure does: missing auth headers, HTTP 401 (expired credential),
HTTP 429, any other status, and network exceptions all print a message and
return `None` (`wearable_integration/fitbit_data.py`). A day under an
expired credential is therefore `⟨none, none, none⟩`. -/
structure DayResponse where
  hr_intraday : Option (List (Int × ℚ))
  resting_hr : Option ℚ
  activity : Option (Int × Int)
deriving DecidableEq, Repr

/-- The list of date strings the sync loop visits:
`for day_offset in range(days): date = now - timedelta(days=day_offset)` —
i.e. `today, today-1, ...`, newest first. -/
def syncDayList (days : Nat) (today : Int) : List Int :=
  (List.range days).map (fun (i : Nat) => today - (i : Int))

/-- One iteration of the day loop of `sync_real_fitbit_data`: heart-rate
intraday points each become a `WearableData` insert (counted), a truthy
resting heart rate becomes a `CalculatedBiomarker` stamped at `now`
(= `datetime.now()`, not the data's day; not counted), and an activity
summary with `steps > 0` becomes one more `WearableData` insert for the day
(counted). A `none` response contributes nothing and stops nothing. -/
def syncDay (pid : String) (d now : Int) (r : DayResponse) (acc : SyncDB × Nat) :
    SyncDB × Nat :=
  let acc1 := match r.hr_intraday with
    | some pts =>
      pts.foldl (fun a p =>
        (add_wearable_data a.1
          { patient_id := pid, timestamp := p.1, heart_rate := some p.2,
            hrv_rmssd := none, steps := none, calories := none, source := "fitbit" },
         a.2 + 1)) acc
    | none => acc
  let acc2 := match r.resting_hr with
    | some rhr =>
      if rhr ≠ 0 then
        (add_biomarker acc1.1
          { patient_id := pid, biomarker_type := "resting_heart_rate",
            value := rhr, timestamp := now, unit := "bpm", source := "fitbit" },
         acc1.2)
      else acc1
    | none => acc1
  match r.activity with
  | some sc =>
    if sc.1 > 0 then
      (add_wearable_data acc2.1
        { patient_id := pid, timestamp := d, heart_rate := none,
          hrv_rmssd := none, steps := some sc.1, calories := some sc.2,
          source := "fitbit" },
       acc2.2 + 1)
    else acc2
  | none => acc2

/-- Model of `sync_real_fitbit_data(fitbit_service, db_service, patient_id, days)`:
folds the day loop over `syncDayList`, threading the database and the
`saved_count`; `resp` is the provider's per-day reply. The function returns
nothing to its caller beyond UI messages, so the model's value is the final
database and `saved_count`. -/
def sync_real_fitbit_data (pid : String) (days : Nat) (today now : Int)
    (resp : Int → DayResponse) (db : SyncDB) : SyncDB × Nat :=
  (syncDayList days today).foldl (fun acc d => syncDay pid d now (resp d) acc) (db, 0)

/-! ## Aggregation / reporting (`clinical_service.py`, `database_service.py`) -/

/-- Python truthiness filter used by the report comprehensions
(`[d.heart_rate for d in wearable_data if d.heart_rate]`): keeps values
that are present and nonzero. -/
def pyTruthy (o : Option ℚ) : Option ℚ :=
  match o with
  | some v => if v = 0 then none else some v
  | none => none

/-- The `summary` block of `ClinicalService.generate_patient_report`. -/
structure ReportSummary where
  monitoring_period_days : Nat
  data_points : Nat
  symptom_reports : Nat
  average_heart_rate : Option ℚ
  average_hrv : Option ℚ
  clinical_notes : Nat
deriving DecidableEq, Repr

/-- Row of the `SymptomReport` table (key columns only). -/
structure SymptomRow where
  patient_id : String
  report_date : Int
deriving DecidableEq, Repr

/-- Row of the `ClinicalNote` table (key columns only). -/
structure NoteRow where
  patient_id : String
  created_at : Int
deriving DecidableEq, Repr

/-- Sum of a list of rationals. -/
def qsum (l : List ℚ) : ℚ := l.foldl (· + ·) 0

/-- Model of `ClinicalService.generate_patient_report`: returns `{}` (here `none`)
when the patient id is unknown; otherwise filters each table to the patient
and the trailing window `timestamp >= utcnow - timedelta(days)`, and
computes the averages only over truthy values, guarded by
`if wearable_data:` outside and `if hr_values else None` inside — `None`
whenever the respective value list is empty. `clinical_notes` counts
`get_patient_notes(patient_id, limit=10)`. -/
def generate_patient_report (patients : List Patient) (wdTable : List WearableRow)
    (srTable : List SymptomRow) (bmTable : List BiomarkerRow)
    (notesTable : List NoteRow) (patient_id : String) (days : Nat) (now : Int) :
    Option ReportSummary :=
  if patients.any (fun p => p.id = patient_id) then
    let start := now - days
    let wearable_data := wdTable.filter
      (fun d => d.patient_id = patient_id ∧ start ≤ d.timestamp)
    let symptom_reports := srTable.filter
      (fun s => s.patient_id = patient_id ∧ start ≤ s.report_date)
    let _biomarkers := bmTable.filter
      (fun b => b.patient_id = patient_id ∧ start ≤ b.timestamp)
    let clinical_notes :=
      ((notesTable.filter (fun n => n.patient_id = patient_id)).take 10).length
    let hr_values := wearable_data.filterMap (fun d => pyTruthy d.heart_rate)
    let hrv_values := wearable_data.filterMap (fun d => pyTruthy d.hrv_rmssd)
    let average_heart_rate :=
      if wearable_data.isEmpty then none
      else if hr_values.isEmpty then none
      else some (qsum hr_values / hr_values.length)
    let average_hrv :=
      if wearable_data.isEmpty then none
      else if hrv_values.isEmpty then none
      else some (qsum hrv_values / hrv_values.length)
    some { monitoring_period_days := days, data_points := wearable_data.length,
           symptom_reports := symptom_reports.length,
           average_heart_rate := average_heart_rate,
           average_hrv := average_hrv, clinical_notes := clinical_notes }
  else none

/-- Result of `DatabaseService.get_patient_health_summary`. -/
structure HealthSummary where
  latest_heart_rate : Option ℚ
  latest_symptoms : Option SymptomRow
  recent_activity : ℚ
  data_points_count : Nat
deriving DecidableEq, Repr

/-- Semantics of `ORDER BY timestamp DESC LIMIT 1`: the first row carrying the maximal
timestamp. -/
def latestBiomarker (l : List BiomarkerRow) : Option BiomarkerRow :=
  l.foldl (fun acc b =>
    match acc with
    | none => some b
    | some c => if b.timestamp > c.timestamp then some b else acc) none

/-- Semantics of `ORDER BY report_date DESC LIMIT 1` over symptom reports. -/
def latestSymptom (l : List SymptomRow) : Option SymptomRow :=
  l.foldl (fun acc s =>
    match acc with
    | none => some s
    | some c => if s.report_date > c.report_date then some s else acc) none

/-- Model of `DatabaseService.get_patient_health_summary`: latest RESTING_HR
biomarker's value (or `None`), latest symptom report (or `None`), and
`avg_steps = sum(d.steps or 0) / max(len(wearable_data), 1)` over the
7-day window — the `max(..., 1)` guards the division on an empty window. -/
def get_patient_health_summary (bmTable : List BiomarkerRow)
    (srTable : List SymptomRow) (wdTable : List WearableRow)
    (patient_id : String) (now : Int) : HealthSummary :=
  let latest_hr := latestBiomarker (bmTable.filter
    (fun b => b.patient_id = patient_id ∧ b.biomarker_type = "resting_heart_rate"))
  let latest_symptoms := latestSymptom (srTable.filter
    (fun s => s.patient_id = patient_id))
  let wearable_data := wdTable.filter
    (fun d => d.patient_id = patient_id ∧ now - 7 ≤ d.timestamp)
  let avg_steps : ℚ :=
    (wearable_data.foldl (fun s d => s + (d.steps.getD 0)) 0 : Int) /
      (max wearable_data.length 1 : Nat)
  { latest_heart_rate := latest_hr.map (fun b => b.value),
    latest_symptoms := latest_symptoms,
    recent_activity := avg_steps,
    data_points_count := wearable_data.length }

/-! ## Dashboard classification (`app.py::show_dashboard`, lines 755–761) -/

/-- The only range classification in the source:
`hr_status = "normal" if latest_hr and 60 <= latest_hr <= 100 else "warning"`
— Python truthiness on the optional value, then one hard-coded inclusive
range; every other value (absent, zero, low, high) is `"warning"`. -/
def hr_status (latest_hr : Option ℚ) : String :=
  match latest_hr with
  | some v => if v ≠ 0 ∧ 60 ≤ v ∧ v ≤ 100 then "normal" else "warning"
  | none => "warning"

/-- Modelled from the spec (§4.1), not from the source — the source has no
ranges-table classifier; this definition follows the spec's words so the
source's `hr_status` can be compared against it: evaluate tiers in
descending severity order (critical, warning, normal), returning the first
tier one of whose inclusive intervals contains the value, and
`"unclassified"` when none does. -/
structure RangesTable where
  critical : List (ℚ × ℚ)
  warning : List (ℚ × ℚ)
  normal : List (ℚ × ℚ)
deriving DecidableEq, Repr

/-- Modelled from the spec (§4.1): membership of a value in a tier's
inclusive interval set. -/
def inIntervals (v : ℚ) (l : List (ℚ × ℚ)) : Bool :=
  l.any (fun p => p.1 ≤ v ∧ v ≤ p.2)

/-- Modelled from the spec (§4.1): the severity-first classifier the spec
describes. Kept solely to state what the source's classification would have
to satisfy; the source's own behaviour is `hr_status`. -/
def classifySpec (ranges : RangesTable) (v : ℚ) : String :=
  if inIntervals v ranges.critical then "critical"
  else if inIntervals v ranges.warning then "warning"
  else if inIntervals v ranges.normal then "normal"
  else "unclassified"

/-- The ranges table of the spec's concrete classification scenario. -/
def specScenarioRanges : RangesTable :=
  { critical := [(0, 50), (120, 300)], warning := [(50, 60), (100, 120)],
    normal := [(60, 100)] }

/-- The `WearableData` rows one day of the sync writes, as a function of
that day's provider responses alone: one row per intraday heart-rate
observation, plus one steps/calories row when the activity summary reports
a positive step count. -/
def dayWearableRows (pid : String) (d : Int) (r : DayResponse) : List WearableRow :=
  (match r.hr_intraday with
   | some pts => pts.map (fun p =>
      { patient_id := pid, timestamp := p.1, heart_rate := some p.2,
        hrv_rmssd := none, steps := none, calories := none, source := "fitbit" })
   | none => []) ++
  (match r.activity with
   | some sc =>
     if sc.1 > 0 then
       [{ patient_id := pid, timestamp := d, heart_rate := none,
          hrv_rmssd := none, steps := some sc.1, calories := some sc.2,
          source := "fitbit" }]
     else []
   | none => [])

/-- The `CalculatedBiomarker` rows one day of the sync writes, as a
function of that day's provider responses alone: one RESTING_HR biomarker
when a truthy resting heart rate came back, stamped at fetch time. -/
def dayBiomarkerRows (pid : String) (now : Int) (r : DayResponse) : List BiomarkerRow :=
  match r.resting_hr with
  | some rhr =>
    if rhr ≠ 0 then
      [{ patient_id := pid, biomarker_type := "resting_heart_rate",
         value := rhr, timestamp := now, unit := "bpm", source := "fitbit" }]
    else []
  | none => []

/-- Provider responses for re-sync scenarios: every day answers with the
same single intraday heart-rate observation (timestamp 5, 70 bpm) and
nothing else. -/
def repeatedHrResp : Int → DayResponse :=
  fun _ => { hr_intraday := some [(5, 70)], resting_hr := none, activity := none }

/-- Provider responses for the credential-expiry scenario: on day 1 every
call fails (`make_api_call` returns `None` — e.g. HTTP 401, expired
credential); on any other day one intraday heart-rate observation comes
back. -/
def credExpiryResp : Int → DayResponse :=
  fun d =>
    if d = 1 then { hr_intraday := none, resting_hr := none, activity := none }
    else { hr_intraday := some [(5, 70)], resting_hr := none, activity := none }

/-! ## Theorems -/

/-- Helper: one `create_alert` call adds exactly one OPEN alert of its own
`(patient_id, alert_type)` key. -/
theorem openCount_create_alert (db : List AlertRow) (d : AlertData) (i : Nat) (t : Int) :
    openCount (create_alert db d i t) d.patient_id d.alert_type =
      openCount db d.patient_id d.alert_type + 1 := by
  simp [openCount, create_alert, List.filter_append]

/-- C1 counterexample: two `create_alert` calls with the demo alert data of
`demo_data.py` (same patient, same `HIGH_HEART_RATE` type) leave two OPEN
alerts of that key — the claimed at-most-one invariant does not hold. -/
theorem C1_counterexample :
    openCount
      (create_alert
        (create_alert []
          ⟨"p1", AlertType.HIGH_HEART_RATE, "high", "Elevated Resting Heart Rate",
           "resting heart rate up 15 percent", some 85, some "60-100 bpm"⟩ 1 0)
        ⟨"p1", AlertType.HIGH_HEART_RATE, "high", "Elevated Resting Heart Rate",
         "resting heart rate up 15 percent", some 85, some "60-100 bpm"⟩ 2 1)
      "p1" AlertType.HIGH_HEART_RATE = 2 ∧
    ¬ openCount
      (create_alert
        (create_alert []
          ⟨"p1", AlertType.HIGH_HEART_RATE, "high", "Elevated Resting Heart Rate",
           "resting heart rate up 15 percent", some 85, some "60-100 bpm"⟩ 1 0)
        ⟨"p1", AlertType.HIGH_HEART_RATE, "high", "Elevated Resting Heart Rate",
         "resting heart rate up 15 percent", some 85, some "60-100 bpm"⟩ 2 1)
      "p1" AlertType.HIGH_HEART_RATE ≤ 1 := by decide

/-- C1 (amended): `create_alert` performs no dedup check, so a sequence of
`k` alert-creating calls with the same `(patient_id, alert_type)` adds
exactly `k` OPEN alerts of that key — the OPEN count grows with the call
count instead of being capped at one. -/
theorem C1_amended (db : List AlertRow) (d : AlertData) (calls : List (Nat × Int)) :
    openCount (create_alert_times db d calls) d.patient_id d.alert_type =
      openCount db d.patient_id d.alert_type + calls.length := by
  induction calls generalizing db with
  | nil => simp [create_alert_times]
  | cons c cs ih =>
    have h1 : create_alert_times db d (c :: cs) =
        create_alert_times (create_alert db d c.1 c.2) d cs := by
      simp [create_alert_times]
    rw [h1, ih, openCount_create_alert]
    simp only [List.length_cons]
    omega

/-- Helper: the resolution update of `resolve_alert` never changes an
alert's primary key, so the post-update primary-key lookup finds exactly
the updated image of what the pre-update lookup found. -/
theorem find_resolve_map (alert_id : Nat) (upd : AlertRow → AlertRow)
    (hid : ∀ a, (upd a).id = a.id) (db : List AlertRow) :
    (db.map (fun a => if a.id = alert_id then upd a else a)).find?
        (fun a => a.id = alert_id) =
      (db.find? (fun a => a.id = alert_id)).map
        (fun a => if a.id = alert_id then upd a else a) := by
  induction db with
  | nil => rfl
  | cons x xs ih =>
    by_cases hx : x.id = alert_id
    · simp [List.find?_cons, hx, hid]
    · simp [List.find?_cons, hx, ih]

/-- C2 counterexample: resolving an already-resolved alert (resolved by
actor A with notes "first" at time 5) succeeds and returns it with
`resolved_by` overwritten to actor B — not a `NotFoundError` or
`AlreadyResolvedError`, and the old resolution fields are lost. -/
theorem C2_counterexample :
    (resolve_alert
        [{ id := 1, patient_id := "p1", alert_type := AlertType.HIGH_HEART_RATE,
           severity := "high", title := "t", description := "d",
           trigger_value := none, normal_range := none, is_resolved := true,
           resolved_at := some 5, resolved_by := some "A",
           resolution_notes := some "first", created_at := 0 }]
        1 "B" (some "second") 9).1 ≠ none ∧
    ((resolve_alert
        [{ id := 1, patient_id := "p1", alert_type := AlertType.HIGH_HEART_RATE,
           severity := "high", title := "t", description := "d",
           trigger_value := none, normal_range := none, is_resolved := true,
           resolved_at := some 5, resolved_by := some "A",
           resolution_notes := some "first", created_at := 0 }]
        1 "B" (some "second") 9).1.map (fun a => a.resolved_by)) =
      some (some "B") := by decide

/-- C2 (amended): `resolve_alert` never fails. When the id does not exist
it silently returns `None` with the table untouched (no `NotFoundError`);
when the id exists — resolved already or not — it returns the row with
`is_resolved`, `resolved_at`, `resolved_by`, `resolution_notes` overwritten
by the new call's values (no `AlreadyResolvedError`): a second resolution
is a silent overwrite, not an error. -/
theorem C2_amended (db : List AlertRow) (alert_id : Nat) (actor : String)
    (notes : Option String) (now : Int) :
    (db.find? (fun a => a.id = alert_id) = none →
      resolve_alert db alert_id actor notes now = (none, db)) ∧
    ∀ a, db.find? (fun a => a.id = alert_id) = some a →
      (resolve_alert db alert_id actor notes now).1 =
        some { a with is_resolved := true, resolved_at := some now,
                      resolved_by := some actor, resolution_notes := notes } := by
  constructor
  · intro h
    simp [resolve_alert, h]
  · intro a ha
    have haid : a.id = alert_id := by
      have := List.find?_some ha
      simpa using this
    simp only [resolve_alert, ha]
    have hfind := find_resolve_map alert_id
      (fun a =>
        { a with is_resolved := true, resolved_at := some now,
                 resolved_by := some actor, resolution_notes := notes })
      (fun a => rfl) db
    rw [hfind, ha]
    simp [haid]

/-- C2 witness: on a one-row table holding an already-resolved alert, a
second resolution returns the row with the new actor's fields; on the
empty table, resolving id 1 returns `None` and the empty table. -/
theorem C2_witness :
    (resolve_alert
        [{ id := 1, patient_id := "p1", alert_type := AlertType.HIGH_HEART_RATE,
           severity := "high", title := "t", description := "d",
           trigger_value := none, normal_range := none, is_resolved := true,
           resolved_at := some 5, resolved_by := some "A",
           resolution_notes := some "first", created_at := 0 }]
        1 "B" (some "second") 9).1 =
      some { id := 1, patient_id := "p1", alert_type := AlertType.HIGH_HEART_RATE,
             severity := "high", title := "t", description := "d",
             trigger_value := none, normal_range := none, is_resolved := true,
             resolved_at := some 9, resolved_by := some "B",
             resolution_notes := some "second", created_at := 0 } ∧
    resolve_alert [] 1 "B" none 0 = (none, []) := by
  constructor
  · exact (C2_amended
      [{ id := 1, patient_id := "p1", alert_type := AlertType.HIGH_HEART_RATE,
         severity := "high", title := "t", description := "d",
         trigger_value := none, normal_range := none, is_resolved := true,
         resolved_at := some 5, resolved_by := some "A",
         resolution_notes := some "first", created_at := 0 }]
      1 "B" (some "second") 9).2
      { id := 1, patient_id := "p1", alert_type := AlertType.HIGH_HEART_RATE,
        severity := "high", title := "t", description := "d",
        trigger_value := none, normal_range := none, is_resolved := true,
        resolved_at := some 5, resolved_by := some "A",
        resolution_notes := some "first", created_at := 0 } (by decide)
  · exact (C2_amended [] 1 "B" none 0).1 rfl

/-- C3 counterexample: with a stored token whose expiry is long past
(`expires_at = 0`, `now = 1000`, inside the 5-minute buffer) and a failing
refresh, `get_valid_token` returns the stale stored token unchanged —
nothing like a `CredentialExpiredError` exists in the code. -/
theorem C3_counterexample :
    (get_valid_token ⟨some ⟨"stale", some "r", 28800⟩, some 0⟩ 1000 none).1 =
      some ⟨"stale", some "r", 28800⟩ ∧
    (1000 : Int) > expiresAt ⟨some ⟨"stale", some "r", 28800⟩, some 0⟩ - 300 := by
  decide

/-- C3 (amended): within the 5-minute buffer `get_valid_token` does attempt
a refresh first and returns the refreshed token when the refresh succeeds;
but when the refresh fails it falls back to returning the previously stored
(stale) token — `self.refresh_token() or token` — rather than surfacing any
error. -/
theorem C3_amended (st : AuthState) (now : Int) (resp : Option Token) (tok : Token)
    (h1 : st.fitbit_token = some tok) (h2 : now > expiresAt st - 300) :
    ((refresh_token st now resp).1 = none →
      (get_valid_token st now resp).1 = some tok) ∧
    ∀ t, (refresh_token st now resp).1 = some t →
      (get_valid_token st now resp).1 = some t := by
  constructor
  · intro h
    simp [get_valid_token, h1, if_pos h2, h]
  · intro t h
    simp [get_valid_token, h1, if_pos h2, h]

/-- C3 witness: concrete session state past its expiry buffer — a failing
refresh yields the old token back; a successful refresh yields the new
token. -/
theorem C3_witness :
    (get_valid_token ⟨some ⟨"old", some "r", 28800⟩, some 100⟩ 500 none).1 =
      some ⟨"old", some "r", 28800⟩ ∧
    (get_valid_token ⟨some ⟨"old", some "r", 28800⟩, some 100⟩ 500
        (some ⟨"new", some "r2", 28800⟩)).1 = some ⟨"new", some "r2", 28800⟩ := by
  constructor
  · exact (C3_amended ⟨some ⟨"old", some "r", 28800⟩, some 100⟩ 500 none
      ⟨"old", some "r", 28800⟩ rfl (by decide)).1 (by decide)
  · exact (C3_amended ⟨some ⟨"old", some "r", 28800⟩, some 100⟩ 500
      (some ⟨"new", some "r2", 28800⟩) ⟨"old", some "r", 28800⟩ rfl (by decide)).2
      ⟨"new", some "r2", 28800⟩ (by decide)

/-- C4 counterexample: the program's classification of 45 is `"warning"`,
not the `"critical"` the claim requires (the spec-modelled severity-first
classifier would say `"critical"`), and a value inside no configured
interval (500) is classified `"warning"`, never `"unclassified"`. -/
theorem C4_counterexample :
    hr_status (some 45) = "warning" ∧ "warning" ≠ "critical" ∧
    classifySpec specScenarioRanges 45 = "critical" ∧
    hr_status (some 500) = "warning" ∧ "warning" ≠ "unclassified" ∧
    classifySpec specScenarioRanges 500 = "unclassified" := by decide

/-- C4 (amended): the source's only classification is the binary dashboard
check — `"normal"` exactly when the value is present, nonzero and inside
the hard-coded inclusive range 60–100, and `"warning"` in every other
case; no ranges table is consulted and the tiers `"critical"` and
`"unclassified"` are never produced. On the spec's scenario values the code
yields normal for 85, warning for 55, warning (not critical) for 45, and
warning for 110. -/
theorem C4_amended :
    (∀ o : Option ℚ, hr_status o = "normal" ∨ hr_status o = "warning") ∧
    (∀ o : Option ℚ, hr_status o ≠ "critical" ∧ hr_status o ≠ "unclassified") ∧
    (∀ v : ℚ, hr_status (some v) = "normal" ↔ v ≠ 0 ∧ 60 ≤ v ∧ v ≤ 100) ∧
    hr_status none = "warning" ∧
    hr_status (some 85) = "normal" ∧ hr_status (some 55) = "warning" ∧
    hr_status (some 45) = "warning" ∧ hr_status (some 110) = "warning" := by
  have hcases : ∀ o : Option ℚ, hr_status o = "normal" ∨ hr_status o = "warning" := by
    intro o
    cases o with
    | none => right; rfl
    | some v =>
      by_cases h : v ≠ 0 ∧ 60 ≤ v ∧ v ≤ 100
      · left; simp [hr_status, h]
      · right; simp [hr_status, h]
  refine ⟨hcases, ?_, ?_, by decide, by decide, by decide, by decide, by decide⟩
  · intro o
    rcases hcases o with h | h <;> rw [h] <;> exact ⟨by decide, by decide⟩
  · intro v
    constructor
    · intro h
      by_contra hc
      have : hr_status (some v) = "warning" := by simp [hr_status, hc]
      rw [h] at this
      exact absurd this (by decide)
    · intro h
      simp [hr_status, h]

/-- C5 counterexample: a two-day sync with `today = 10` visits the days as
`[10, 9]` — newest first — not the oldest-first `[9, 10]` the claim
requires. -/
theorem C5_counterexample :
    syncDayList 2 10 = [10, 9] ∧ syncDayList 2 10 ≠ [9, 10] := by decide

/-- C5 (amended): the sync visits exactly the days of the window
`[today - dayCount + 1, today]`, but iterates them newest first — the day
list is strictly decreasing, starting at `today`. -/
theorem C5_amended (days : Nat) (today : Int) :
    (∀ d : Int, d ∈ syncDayList days today ↔ today - days + 1 ≤ d ∧ d ≤ today) ∧
    List.Sorted (· > ·) (syncDayList days today) := by
  constructor
  · intro d
    simp only [syncDayList, List.mem_map, List.mem_range]
    constructor
    · rintro ⟨i, hi, rfl⟩
      omega
    · rintro ⟨h1, h2⟩
      refine ⟨(today - d).toNat, by omega, by omega⟩
  · refine List.Pairwise.map _ (fun a b h => ?_) (List.pairwise_lt_range days)
    show today - (a : Int) > today - (b : Int)
    omega

/-- Helper: the inner heart-rate fold of `syncDay` appends exactly one row
per observation and counts each. -/
theorem hr_fold_spec (pid : String) (pts : List (Int × ℚ)) (acc : SyncDB × Nat) :
    pts.foldl (fun a p =>
      (add_wearable_data a.1
        { patient_id := pid, timestamp := p.1, heart_rate := some p.2,
          hrv_rmssd := none, steps := none, calories := none, source := "fitbit" },
       a.2 + 1)) acc =
    ({ wearable := acc.1.wearable ++ pts.map (fun p =>
         { patient_id := pid, timestamp := p.1, heart_rate := some p.2,
           hrv_rmssd := none, steps := none, calories := none, source := "fitbit" }),
       biomarkers := acc.1.biomarkers }, acc.2 + pts.length) := by
  induction pts generalizing acc with
  | nil => simp
  | cons p ps ih =>
    rw [List.foldl_cons, ih]
    simp only [add_wearable_data, List.map_cons, List.length_cons, Prod.mk.injEq,
      SyncDB.mk.injEq, List.append_assoc, List.singleton_append]
    refine ⟨?_, by omega⟩
    simp

/-- Helper: one day of the sync appends to the two tables exactly the
per-day rows computed from that day's responses alone; nothing that
happened on other days (or failed on this one) changes that. -/
theorem syncDay_spec (pid : String) (d now : Int) (r : DayResponse) (acc : SyncDB × Nat) :
    (syncDay pid d now r acc).1.wearable = acc.1.wearable ++ dayWearableRows pid d r ∧
    (syncDay pid d now r acc).1.biomarkers =
      acc.1.biomarkers ++ dayBiomarkerRows pid now r := by
  obtain ⟨hr, rhr, act⟩ := r
  cases hr <;> cases rhr <;> cases act <;>
    (simp only [syncDay, hr_fold_spec]
     repeat' split
     all_goals simp_all [add_wearable_data, add_biomarker, dayWearableRows,
       dayBiomarkerRows, List.append_assoc])

/-- Helper: the whole day loop decomposes into an append of independent
per-day row blocks, one per visited day. -/
theorem sync_fold_spec (pid : String) (now : Int) (resp : Int → DayResponse)
    (L : List Int) :
    ∀ acc : SyncDB × Nat,
      ((L.foldl (fun a d => syncDay pid d now (resp d) a) acc).1.wearable =
        acc.1.wearable ++ (L.map (fun d => dayWearableRows pid d (resp d))).flatten) ∧
      ((L.foldl (fun a d => syncDay pid d now (resp d) a) acc).1.biomarkers =
        acc.1.biomarkers ++ (L.map (fun d => dayBiomarkerRows pid now (resp d))).flatten) := by
  induction L with
  | nil => intro acc; simp
  | cons d L ih =>
    intro acc
    have hd := syncDay_spec pid d now (resp d) acc
    have ht := ih (syncDay pid d now (resp d) acc)
    simp only [List.foldl_cons, List.map_cons, List.flatten_cons]
    constructor
    · rw [ht.1, hd.1, List.append_assoc]
    · rw [ht.2, hd.2, List.append_assoc]

/-- C6: the code at the failing input — syncing the same one-day window
twice with identical provider responses (one heart-rate observation)
inserts a second, identical row: `add_wearable_data` is a blind insert, so
the row count doubles instead of staying at one as the claimed upsert
semantics requires. -/
theorem C6_failing_eval :
    (sync_real_fitbit_data "p1" 1 0 0 repeatedHrResp
        (sync_real_fitbit_data "p1" 1 0 0 repeatedHrResp ⟨[], []⟩).1).1.wearable =
      [{ patient_id := "p1", timestamp := 5, heart_rate := some 70,
         hrv_rmssd := none, steps := none, calories := none, source := "fitbit" },
       { patient_id := "p1", timestamp := 5, heart_rate := some 70,
         hrv_rmssd := none, steps := none, calories := none, source := "fitbit" }] ∧
    (sync_real_fitbit_data "p1" 1 0 0 repeatedHrResp ⟨[], []⟩).1.wearable.length = 1 := by
  decide

/-- C7 counterexample: a two-day sync where every call of the newest day
(processed first) fails with an expired credential still writes the older
day's heart-rate row — a credential failure does not abort the remaining
days, contradicting the claimed immediate abort. -/
theorem C7_counterexample :
    (sync_real_fitbit_data "p1" 2 1 0 credExpiryResp ⟨[], []⟩).1.wearable =
      [{ patient_id := "p1", timestamp := 5, heart_rate := some 70,
         hrv_rmssd := none, steps := none, calories := none, source := "fitbit" }] ∧
    (sync_real_fitbit_data "p1" 2 1 0 credExpiryResp ⟨[], []⟩).1.wearable ≠ [] := by
  decide

/-- C7 (amended): no failure aborts anything and nothing is recorded — the
rows the sync writes decompose day by day, each day's block a function of
that day's responses alone; a day whose calls all fail (credential expiry
included) contributes an empty block and every other day is written
exactly as if no failure had occurred. The function returns no `errors[]`
collection, and credential failures are not distinguished from any other
per-day failure. -/
theorem C7_amended (pid : String) (days : Nat) (today now : Int)
    (resp : Int → DayResponse) (db : SyncDB) :
    (sync_real_fitbit_data pid days today now resp db).1.wearable =
      db.wearable ++
        ((syncDayList days today).map (fun d => dayWearableRows pid d (resp d))).flatten ∧
    (sync_real_fitbit_data pid days today now resp db).1.biomarkers =
      db.biomarkers ++
        ((syncDayList days today).map (fun d => dayBiomarkerRows pid now (resp d))).flatten := by
  exact sync_fold_spec pid now resp (syncDayList days today) (db, 0)

/-- Helper: every alert of the table returned by `resolve_alert` that
carries the resolved primary key is marked resolved. -/
theorem resolve_alert_marks (db : List AlertRow) (alert_id : Nat) (actor : String)
    (notes : Option String) (now : Int) :
    ∀ a ∈ (resolve_alert db alert_id actor notes now).2,
      a.id = alert_id → a.is_resolved = true := by
  intro a ha hid
  unfold resolve_alert at ha
  cases hfind : db.find? (fun x => x.id = alert_id) with
  | none =>
    rw [hfind] at ha
    have := List.find?_eq_none.mp hfind a ha
    simp [hid] at this
  | some w =>
    rw [hfind] at ha
    simp only at ha
    rcases List.mem_map.mp ha with ⟨x, hx, hgx⟩
    by_cases hxid : x.id = alert_id
    · rw [if_pos hxid] at hgx
      rw [← hgx]
    · rw [if_neg hxid] at hgx
      rw [← hgx] at hid
      exact absurd hid hxid

/-- Helper: membership in an active-alerts result implies membership in the
underlying table with `is_resolved = false`. -/
theorem mem_get_active_alerts (db : List AlertRow) (patients : List Patient)
    (assignments : List ClinicianPatient) (cid : Option String) (a : AlertRow)
    (h : a ∈ get_active_alerts db patients assignments cid) :
    a ∈ db ∧ a.is_resolved = false := by
  cases cid with
  | none =>
    simp only [get_active_alerts, List.mem_filter, decide_eq_true_eq] at h
    exact h
  | some c =>
    simp only [get_active_alerts, List.mem_filter, decide_eq_true_eq] at h
    exact ⟨h.1, h.2.1⟩

/-- C9: after `resolve_alert` on any alert id, no active-alerts query — for
any clinician or for none — returns an alert with that id: resolution
removes the alert from every active-alerts result. -/
theorem C9_theorem (db : List AlertRow) (patients : List Patient)
    (assignments : List ClinicianPatient) (cid : Option String)
    (alert_id : Nat) (actor : String) (notes : Option String) (now : Int) :
    ∀ a ∈ get_active_alerts (resolve_alert db alert_id actor notes now).2
        patients assignments cid, a.id ≠ alert_id := by
  intro a ha hid
  have hm := mem_get_active_alerts _ patients assignments cid a ha
  have := resolve_alert_marks db alert_id actor notes now a hm.1 hid
  rw [hm.2] at this
  exact Bool.false_ne_true this

/-- C9 witness: resolving alert 1 leaves alert 2 in the clinician's active
list, and the theorem yields that its id differs from the resolved one. -/
theorem C9_witness :
    ({ id := 2, patient_id := "p1", alert_type := AlertType.LOW_HRV,
       severity := "medium", title := "t2", description := "d2",
       trigger_value := none, normal_range := none, is_resolved := false,
       resolved_at := none, resolved_by := none, resolution_notes := none,
       created_at := 1 } : AlertRow) ∈
      get_active_alerts
        (resolve_alert
          [{ id := 1, patient_id := "p1", alert_type := AlertType.HIGH_HEART_RATE,
             severity := "high", title := "t1", description := "d1",
             trigger_value := none, normal_range := none, is_resolved := false,
             resolved_at := none, resolved_by := none, resolution_notes := none,
             created_at := 0 },
           { id := 2, patient_id := "p1", alert_type := AlertType.LOW_HRV,
             severity := "medium", title := "t2", description := "d2",
             trigger_value := none, normal_range := none, is_resolved := false,
             resolved_at := none, resolved_by := none, resolution_notes := none,
             created_at := 1 }] 1 "doc" none 9).2
        [{ id := "p1", status := PatientStatus.ACTIVE, risk_level := none,
           created_at := 0 }]
        [{ clinician_id := "c1", patient_id := "p1", is_primary := true }]
        (some "c1") ∧
    ({ id := 2, patient_id := "p1", alert_type := AlertType.LOW_HRV,
       severity := "medium", title := "t2", description := "d2",
       trigger_value := none, normal_range := none, is_resolved := false,
       resolved_at := none, resolved_by := none, resolution_notes := none,
       created_at := 1 } : AlertRow).id ≠ 1 := by
  refine ⟨by decide, ?_⟩
  exact C9_theorem
    [{ id := 1, patient_id := "p1", alert_type := AlertType.HIGH_HEART_RATE,
       severity := "high", title := "t1", description := "d1",
       trigger_value := none, normal_range := none, is_resolved := false,
       resolved_at := none, resolved_by := none, resolution_notes := none,
       created_at := 0 },
     { id := 2, patient_id := "p1", alert_type := AlertType.LOW_HRV,
       severity := "medium", title := "t2", description := "d2",
       trigger_value := none, normal_range := none, is_resolved := false,
       resolved_at := none, resolved_by := none, resolution_notes := none,
       created_at := 1 }]
    [{ id := "p1", status := PatientStatus.ACTIVE, risk_level := none,
       created_at := 0 }]
    [{ clinician_id := "c1", patient_id := "p1", is_primary := true }]
    (some "c1") 1 "doc" none 9 _ (by decide)

/-- C10: the default patient list of a clinician contains only patients
whose status is exactly ACTIVE — HIGH_RISK, INACTIVE and ARCHIVED patients
are excluded — and the dashboard statistics count patients over exactly
that default list. -/
theorem C10_theorem (patients : List Patient) (assignments : List ClinicianPatient)
    (cid : String) (alerts : List AlertRow) :
    (∀ p ∈ get_patients_by_clinician patients assignments cid false,
      p.status = PatientStatus.ACTIVE) ∧
    (get_clinician_dashboard_stats patients assignments alerts cid).total_patients =
      (get_patients_by_clinician patients assignments cid false).length := by
  constructor
  · intro p hp
    simp only [get_patients_by_clinician, Bool.false_eq_true, if_false,
      List.mem_filter, decide_eq_true_eq] at hp
    exact hp.2
  · rfl

/-- C10 witness: with one ACTIVE and one HIGH_RISK patient assigned to the
same clinician, the ACTIVE patient is in the default list (and the theorem
gives its status), while the HIGH_RISK patient is not. -/
theorem C10_witness :
    ({ id := "p1", status := PatientStatus.ACTIVE, risk_level := none,
       created_at := 0 } : Patient) ∈
      get_patients_by_clinician
        [{ id := "p1", status := PatientStatus.ACTIVE, risk_level := none,
           created_at := 0 },
         { id := "p2", status := PatientStatus.HIGH_RISK, risk_level := some "high",
           created_at := 0 }]
        [{ clinician_id := "c1", patient_id := "p1", is_primary := true },
         { clinician_id := "c1", patient_id := "p2", is_primary := true }]
        "c1" false ∧
    ({ id := "p1", status := PatientStatus.ACTIVE, risk_level := none,
       created_at := 0 } : Patient).status = PatientStatus.ACTIVE ∧
    ({ id := "p2", status := PatientStatus.HIGH_RISK, risk_level := some "high",
       created_at := 0 } : Patient) ∉
      get_patients_by_clinician
        [{ id := "p1", status := PatientStatus.ACTIVE, risk_level := none,
           created_at := 0 },
         { id := "p2", status := PatientStatus.HIGH_RISK, risk_level := some "high",
           created_at := 0 }]
        [{ clinician_id := "c1", patient_id := "p1", is_primary := true },
         { clinician_id := "c1", patient_id := "p2", is_primary := true }]
        "c1" false := by
  refine ⟨by decide, ?_, by decide⟩
  exact (C10_theorem
    [{ id := "p1", status := PatientStatus.ACTIVE, risk_level := none,
       created_at := 0 },
     { id := "p2", status := PatientStatus.HIGH_RISK, risk_level := some "high",
       created_at := 0 }]
    [{ clinician_id := "c1", patient_id := "p1", is_primary := true },
     { clinician_id := "c1", patient_id := "p2", is_primary := true }]
    "c1" []).1 _ (by decide)

/-- C8: the aggregation operations tolerate missing data. On a fully empty
window the patient report returns `None` averages and zero counts and the
health summary returns `None` latest values, zero activity and zero count;
and in general, whenever the patient's window holds no wearable rows, the
report's averages are `None` (not a division by zero) and the summary's
7-day step average is the guarded `0 / max(0,1) = 0`. -/
theorem C8_theorem :
    (generate_patient_report
        [{ id := "p", status := PatientStatus.ACTIVE, risk_level := none,
           created_at := 0 }] [] [] [] [] "p" 30 1000 =
      some { monitoring_period_days := 30, data_points := 0, symptom_reports := 0,
             average_heart_rate := none, average_hrv := none, clinical_notes := 0 }) ∧
    (get_patient_health_summary [] [] [] "p" 1000 =
      { latest_heart_rate := none, latest_symptoms := none, recent_activity := 0,
        data_points_count := 0 }) ∧
    (∀ (bm : List BiomarkerRow) (sr : List SymptomRow) (wdTable : List WearableRow)
       (pid : String) (now : Int),
      wdTable.filter (fun d => d.patient_id = pid ∧ now - 7 ≤ d.timestamp) = [] →
        (get_patient_health_summary bm sr wdTable pid now).recent_activity = 0 ∧
        (get_patient_health_summary bm sr wdTable pid now).data_points_count = 0) ∧
    (∀ (patients : List Patient) (wdTable : List WearableRow) (srTable : List SymptomRow)
       (bmTable : List BiomarkerRow) (notesTable : List NoteRow) (pid : String)
       (days : Nat) (now : Int) (s : ReportSummary),
      generate_patient_report patients wdTable srTable bmTable notesTable pid days now =
        some s →
      wdTable.filter (fun d => d.patient_id = pid ∧ now - (days : Int) ≤ d.timestamp) = [] →
        s.average_heart_rate = none ∧ s.average_hrv = none ∧ s.data_points = 0) := by
  refine ⟨by decide, ?_, ?_, ?_⟩
  · simp [get_patient_health_summary, latestBiomarker, latestSymptom]
  · intro bm sr wdTable pid now h
    simp only [get_patient_health_summary, h]
    constructor <;> simp
  · intro patients wdTable srTable bmTable notesTable pid days now s hrep h
    simp only [generate_patient_report] at hrep
    split at hrep
    · rw [h] at hrep
      simp only [List.isEmpty_nil, List.filterMap_nil, List.length_nil,
        if_true] at hrep
      rcases Option.some.injEq _ _ ▸ hrep with rfl
      simp
    · exact absurd hrep (by simp)

/-- C8 witness: the general no-data conjuncts applied to concrete empty
tables. -/
theorem C8_witness :
    ((get_patient_health_summary [] [] [] "q" 50).recent_activity = 0 ∧
      (get_patient_health_summary [] [] [] "q" 50).data_points_count = 0) ∧
    ((generate_patient_report
        [{ id := "q", status := PatientStatus.HIGH_RISK, risk_level := some "high",
           created_at := 3 }] [] [] [] [] "q" 7 50).map
          (fun s => s.average_heart_rate) = some none) := by
  constructor
  · exact (C8_theorem.2.2.1 [] [] [] "q" 50 rfl)
  · have h := C8_theorem.2.2.2
      [{ id := "q", status := PatientStatus.HIGH_RISK, risk_level := some "high",
         created_at := 3 }] [] [] [] [] "q" 7 50
      { monitoring_period_days := 7, data_points := 0, symptom_reports := 0,
        average_heart_rate := none, average_hrv := none, clinical_notes := 0 }
      (by decide) rfl
    rw [show generate_patient_report
        [{ id := "q", status := PatientStatus.HIGH_RISK, risk_level := some "high",
           created_at := 3 }] [] [] [] [] "q" 7 50 =
      some { monitoring_period_days := 7, data_points := 0, symptom_reports := 0,
             average_heart_rate := none, average_hrv := none, clinical_notes := 0 }
      from by decide]
    simp [h.1]

end CardiacPlatform
